import Mathlib

/-
  Verification development for the MarketingPlatform API CLI
  (mp_api_cli.py). The Python client is shallowly embedded: the
  retry/backoff request executor `_request` becomes a fuel-indexed
  recursion over a stream of HTTP responses, the pagination iterator
  `iter_lists` becomes a fuel-indexed recursion over a fetch oracle,
  and each resource operation becomes a pure function from its
  arguments to either a local validation error (Python `ValueError`)
  or the HTTP request it would dispatch.
-/

namespace MPCli

/-! ### Request executor (`MarketingPlatformClient._request`) -/

/-- One HTTP response as seen by `_request`: its status code, its raw
body text (`resp.text`), and the result of JSON-decoding the body
(`resp.json()`), with `none` standing for a `json.JSONDecodeError`. -/
structure HttpResponse (J : Type) where
  status : Nat
  text : String
  json : Option J
  deriving Repr

/-- Outcome of `_request`. Python raises `MPError` with a formatted
message in the three failure cases; the constructors carry exactly the
data interpolated into those messages.
`nonJsonError` = "Non-JSON response from {url}",
`httpError s b` = "{s} error from {url}: {b}",
`exhausted` = "Failed after {max_retries} attempts: {url}". -/
inductive RequestOutcome (J : Type) where
  | success (v : J)
  | nonJsonError
  | httpError (status : Nat) (body : String)
  | exhausted
  deriving Repr, DecidableEq

/-- What a run of `_request` did: its result, the list of back-off
delays it slept (in order, one per `time.sleep(backoff)` call), and
how many HTTP requests it issued. -/
structure RequestTrace (J : Type) where
  outcome : RequestOutcome J
  sleeps : List Nat
  requests : Nat
  deriving Repr, DecidableEq

/-- The back-off update `backoff = min(backoff * 2, 30)`. The Python
value is a float but every value it takes (1, 2, 4, 8, 16, 30) is
integral, so `Nat` is exact. -/
def nextBackoff (b : Nat) : Nat := min (b * 2) 30

/-- The loop body of `_request`, embedded over a response oracle
`resps` mapping the attempt number (1-based, matching Python's
`range(1, max_retries + 1)`) to the response that attempt receives.
`a` is the current attempt number, `b` the current back-off delay,
and the last argument the number of loop iterations remaining;
running out corresponds to falling off the `for` loop
(`raise MPError(f"Failed after {max_retries} attempts ...")`). -/
def requestAux {J : Type} (resps : Nat → HttpResponse J) :
    Nat → Nat → Nat → RequestTrace J
  | _, _, 0 => ⟨.exhausted, [], 0⟩
  | a, b, r + 1 =>
    let resp := resps a
    if resp.status = 429 then
      -- rate limited: sleep, double the back-off (capped), retry
      let t := requestAux resps (a + 1) (nextBackoff b) r
      ⟨t.outcome, b :: t.sleeps, t.requests + 1⟩
    else if 200 ≤ resp.status ∧ resp.status < 300 then
      match resp.json with
      | some v => ⟨.success v, [], 1⟩
      | none => ⟨.nonJsonError, [], 1⟩
    else if resp.status ∈ [400, 401, 403, 404, 409, 500] then
      ⟨.httpError resp.status resp.text, [], 1⟩
    else
      -- unexpected status: sleep and retry like the 429 case
      let t := requestAux resps (a + 1) (nextBackoff b) r
      ⟨t.outcome, b :: t.sleeps, t.requests + 1⟩

/-- `_request` itself: attempt counter starts at 1, back-off at 1,
with `maxRetries` loop iterations (Python default 5). -/
def request_run {J : Type} (resps : Nat → HttpResponse J) (maxRetries : Nat) :
    RequestTrace J :=
  requestAux resps 1 1 maxRetries

/-! ### Pagination iterator (`MarketingPlatformClient.iter_lists`) -/

/-- A decoded `/Lists` response as consumed by `iter_lists`: the
`"data"` field is either absent/null (`none`) or a list of items.
`α` is the (opaque) item type. -/
structure ListsResponse (α : Type) where
  data : Option (List α)

/-- `data.get("data") or []`: a missing or null field — and, by
Python truthiness, an empty list — becomes `[]`. -/
def responseItems {α : Type} (r : ListsResponse α) : List α :=
  r.data.getD []

/-- The `while True` loop of `iter_lists`, embedded over a fetch
oracle mapping the request offset to the response of
`get_lists(listid, limit = pageSize, offset)`. Returns the yielded
items and the number of requests issued. The last argument is
termination fuel for the unbounded loop; every theorem below supplies
enough fuel that the `0` case is never reached. -/
def iterListsAux {α : Type} (pageSize : Nat) (fetch : Nat → ListsResponse α) :
    Nat → Nat → List α × Nat
  | _, 0 => ([], 0)
  | offset, fuel + 1 =>
    let items := responseItems (fetch offset)
    if items.isEmpty then ([], 1)
    else if items.length < pageSize then (items, 1)
    else
      let t := iterListsAux pageSize fetch (offset + pageSize) fuel
      (items ++ t.1, t.2 + 1)

/-- `iter_lists` starts at offset 0. -/
def iter_lists {α : Type} (pageSize : Nat) (fetch : Nat → ListsResponse α)
    (fuel : Nat) : List α × Nat :=
  iterListsAux pageSize fetch 0 fuel

/-! ### Resource operations

Each operation is embedded as its pre-dispatch phase: a pure function
from the Python arguments to `Except String ApiRequest`, where
`.error msg` is the `raise ValueError(msg)` and `.ok req` means
`self._request` is invoked with exactly the method, path, params and
JSON body recorded in `req` (so `.ok` = an HTTP request is issued,
`.error` = the operation fails locally before any request). -/

/-- A scalar query-parameter value (`params` dict values are ints or
strings in the source). -/
inductive Param where
  | int (n : Int)
  | str (s : String)
  deriving Repr, DecidableEq

/-- One data field as built by `_parse_fields` / accepted by the
profile operations: `{"fieldid": ..., "field_value": ...}`. -/
structure DataField where
  fieldid : Param
  field_value : String
  deriving Repr, DecidableEq

/-- An opaque `settings` dictionary for data-field operations (its
contents are forwarded verbatim and never inspected). -/
structure SettingsDict where
  entries : List (String × String)
  deriving Repr, DecidableEq

/-- An opaque `rules` dictionary for segment operations (its
contents are forwarded verbatim and never inspected). -/
structure RulesDict where
  entries : List (String × String)
  deriving Repr, DecidableEq

/-- A JSON-body value as built by the operations under study. -/
inductive JVal where
  | null
  | bool (b : Bool)
  | int (n : Int)
  | str (s : String)
  | fieldList (fs : List DataField)
  | intList (ns : List Int)
  | settings (s : SettingsDict)
  | rules (r : RulesDict)
  deriving Repr, DecidableEq

/-- The request handed to `_request`: method, path, query params and
JSON body as ordered key/value lists (Python dicts preserve insertion
order); an absent params/body dict is the empty list. -/
structure ApiRequest where
  method : String
  path : String
  params : List (String × Param)
  body : List (String × JVal)
  deriving Repr, DecidableEq

/-- Python truthiness of an optional string: `None` and `""` are
falsy. -/
def truthyOpt : Option String → Bool
  | none => false
  | some s => s != ""

/-- `str(b).lower()` for a Python bool. -/
def pyBoolStr (b : Bool) : String := if b then "true" else "false"

/-- `str` value of an optional-string argument inserted into a JSON
body (`None` serializes as null). -/
def jOfOptStr : Option String → JVal
  | none => .null
  | some s => .str s

/-- `get_profiles_by_list(listid, limit, offset)`: builds the params
dict and dispatches directly — the source performs no validation of
`listid`. -/
def get_profiles_by_list (listid limit offset : Int) :
    Except String ApiRequest :=
  .ok ⟨"GET", "/Profiles/GetProfilesByList",
       [("listid", .int listid), ("limit", .int limit),
        ("offset", .int offset)], []⟩

/-- `get_profiles_from_segment(segmentid, limit, offset)`: likewise
dispatches with no validation of `segmentid`. -/
def get_profiles_from_segment (segmentid limit offset : Int) :
    Except String ApiRequest :=
  .ok ⟨"GET", "/Profiles/GetProfilesFromSegment",
       [("segmentid", .int segmentid), ("limit", .int limit),
        ("offset", .int offset)], []⟩

/-- `get_unsubscribes_by_list`: rejects a falsy (zero) `listid`, then
builds the params dict, adding each `search_*` key only when the
argument is truthy / not `None`. -/
def get_unsubscribes_by_list (listid : Int) (count_only : Bool)
    (search_type : Option String)
    (search_start_date search_end_date : Option Param)
    (limit offset : Int) : Except String ApiRequest :=
  if listid = 0 then .error "listid is required"
  else
    let params := [("listid", Param.int listid),
                   ("count_only", Param.str (pyBoolStr count_only)),
                   ("limit", Param.int limit),
                   ("offset", Param.int offset)]
    let params := if truthyOpt search_type then
        params ++ [("search_type", Param.str (search_type.getD ""))]
      else params
    let params := match search_start_date with
      | some d => params ++ [("search_start_date", d)]
      | none => params
    let params := match search_end_date with
      | some d => params ++ [("search_end_date", d)]
      | none => params
    .ok ⟨"GET", "/Stats/GetUnsubscribesByList", params, []⟩

/-- `add_profile_to_list`: rejects a falsy `listid`, then requires a
truthy `email_address` or both a truthy `mobile_number` and a truthy
`mobile_pfx` (the Python parameter is named mobile_prefix), then
builds the JSON body, email taking priority over mobile. -/
def add_profile_to_list (listid : Int)
    (email_address mobile_number mobile_pfx : Option String)
    (data_fields : Option (List DataField))
    (confirmed mobile_confirmed add_to_autoresponders : Bool) :
    Except String ApiRequest :=
  if listid = 0 then .error "listid is required"
  else if !truthyOpt email_address
      && !(truthyOpt mobile_number && truthyOpt mobile_pfx) then
    .error "Provide email_address OR mobile_number+mobile_prefix"
  else
    let payload := [("listid", JVal.int listid),
                    ("data_fields", JVal.fieldList (data_fields.getD [])),
                    ("confirmed", JVal.bool confirmed),
                    ("mobile_confirmed", JVal.bool mobile_confirmed),
                    ("add_to_autoresponders", JVal.bool add_to_autoresponders)]
    let payload := if truthyOpt email_address then
        payload ++ [("email_address", jOfOptStr email_address)]
      else
        payload ++ [("mobile_number", jOfOptStr mobile_number),
                    ("mobile_prefix", jOfOptStr mobile_pfx)]
    .ok ⟨"POST", "/Profiles", [], payload⟩

/-- `update_profile`: rejects a falsy `profileid` and an empty
`data_fields` list before dispatching. -/
def update_profile (profileid : Int) (data_fields : List DataField) :
    Except String ApiRequest :=
  if profileid = 0 then .error "profileid is required"
  else if data_fields.isEmpty then .error "data_fields cannot be empty"
  else
    .ok ⟨"PUT", "/Profiles/UpdateProfile", [],
         [("profileid", JVal.int profileid),
          ("data_fields", JVal.fieldList data_fields)]⟩

/-- `schedule_send_newsletter_to_list(newsletterid, listid,
send_time_ts)`: builds the JSON body — adding `send_time` only when a
timestamp is given — and dispatches directly; the source performs no
validation of `listid` (nor of `newsletterid`). -/
def schedule_send_newsletter_to_list (newsletterid listid : Int)
    (send_time_ts : Option Int) : Except String ApiRequest :=
  let payload := [("newsletterid", JVal.int newsletterid),
                  ("listid", JVal.int listid)]
  let payload := match send_time_ts with
    | some ts => payload ++ [("send_time", JVal.int ts)]
    | none => payload
  .ok ⟨"POST", "/Send/ScheduleSendNewsletterToList", [], payload⟩

/-- `edit_segment(segmentid, name, rules, connector)`: rejects a
falsy `segmentid`, then dispatches the JSON body. -/
def edit_segment (segmentid : Int) (name : String) (rules : RulesDict)
    (connector : String) : Except String ApiRequest :=
  if segmentid = 0 then .error "segmentid is required"
  else .ok ⟨"PUT", "/Segments", [],
    [("segmentid", JVal.int segmentid), ("name", JVal.str name),
     ("rules", JVal.rules rules), ("connector", JVal.str connector)]⟩

/-- `lists_add_data_fields(listid, field_ids)`: rejects a falsy
`listid` or an empty `field_ids` list, then dispatches. -/
def lists_add_data_fields (listid : Int) (field_ids : List Int) :
    Except String ApiRequest :=
  if listid = 0 ∨ field_ids.isEmpty then
    .error "listid and field_ids are required"
  else .ok ⟨"POST", "/Lists/AddDataFieldsToList", [],
    [("listid", JVal.int listid), ("data_fields", JVal.intList field_ids)]⟩

/-- `lists_remove_data_fields(listid, field_ids)`: same guard as
`lists_add_data_fields`, different endpoint. -/
def lists_remove_data_fields (listid : Int) (field_ids : List Int) :
    Except String ApiRequest :=
  if listid = 0 ∨ field_ids.isEmpty then
    .error "listid and field_ids are required"
  else .ok ⟨"POST", "/Lists/RemoveDataFieldsFromList", [],
    [("listid", JVal.int listid), ("data_fields", JVal.intList field_ids)]⟩

/-- `lists_get_data_fields(listid, field_type, limit, offset)`:
builds the params dict — adding `field_type` only when truthy — and
dispatches directly; the source performs no validation of `listid`. -/
def lists_get_data_fields (listid : Int) (field_type : Option String)
    (limit offset : Int) : Except String ApiRequest :=
  let params := [("listid", Param.int listid), ("limit", Param.int limit),
                 ("offset", Param.int offset)]
  let params := if truthyOpt field_type then
      params ++ [("field_type", Param.str (field_type.getD ""))]
    else params
  .ok ⟨"GET", "/Lists/GetDataFields", params, []⟩

/-- `delete_segment`: rejects a falsy `segmentid`. -/
def delete_segment (segmentid : Int) : Except String ApiRequest :=
  if segmentid = 0 then .error "segmentid is required"
  else .ok ⟨"DELETE", "/Segments", [("segmentid", .int segmentid)], []⟩

/-- `delete_data_field`: rejects a falsy `fieldid`. -/
def delete_data_field (fieldid : Int) : Except String ApiRequest :=
  if fieldid = 0 then .error "fieldid is required"
  else .ok ⟨"DELETE", "/DataFields", [("fieldid", .int fieldid)], []⟩

/-- `create_data_field(name, field_type, default_value, settings)`:
the source checks only that `name` and `field_type` are truthy
(non-empty); it does not check `field_type` against the documented
set of allowed values. -/
def create_data_field (name field_type : String)
    (default_value : Option String) (settings : Option SettingsDict) :
    Except String ApiRequest :=
  if name = "" ∨ field_type = "" then
    .error "name and field_type are required"
  else
    let payload := [("name", JVal.str name),
                    ("field_type", JVal.str field_type)]
    let payload := match default_value with
      | some d => payload ++ [("default_value", JVal.str d)]
      | none => payload
    let payload := match settings with
      | some s => payload ++ [("settings", JVal.settings s)]
      | none => payload
    .ok ⟨"POST", "/DataFields", [], payload⟩

/-- Python `str.lower()`: character-wise lowercasing (extensionally
`String.toLower`, written over the character list so that it is
definitionally transparent). -/
def pyLower (s : String) : String := ⟨s.data.map Char.toLower⟩

/-- `get_profiles_sms_unsubscribed(listid, date, type, limit,
offset)`: rejects a falsy `listid`, a `None`/empty `date`, a
lower-cased `type` outside {on, before, after}, and `limit <= 0`;
caps `limit` at 1000; then dispatches. -/
def get_profiles_sms_unsubscribed (listid : Int) (date : Option Param)
    (type : String) (limit offset : Int) : Except String ApiRequest :=
  if listid = 0 then .error "listid is required"
  else if date = none ∨ date = some (Param.str "") then
    .error "date is required"
  else
    let t := pyLower type
    if ¬(t = "on" ∨ t = "before" ∨ t = "after") then
      .error "type must be one of: on, before, after"
    else if limit ≤ 0 then .error "limit must be > 0"
    else
      let limit := if limit > 1000 then 1000 else limit
      .ok ⟨"GET", "/Profiles/GetProfilesSMSUnsubscribed",
           [("listid", .int listid),
            ("date", date.getD (Param.str "")),
            ("type", .str t),
            ("limit", .int limit),
            ("offset", .int offset)], []⟩

/-! ### CLI top level (`if __name__ == "__main__"` block) -/

/-- The top-level entry: `main()` either completes having printed its
output, or raises an exception with a message; the handler prints
`"Error: {ex}"`. There is no `sys.exit` anywhere in the source, so
the script ends normally — process exit status 0 — in both branches.
Result: (lines printed, exit status). -/
def cliTopLevel (mainOutcome : Except String String) :
    List String × Nat :=
  match mainOutcome with
  | .ok printed => ([printed], 0)
  | .error msg => (["Error: " ++ msg], 0)


/-- Is the operation result a local validation error (a raised
`ValueError`)? -/
def isLocalError {A : Type} : Except String A → Bool
  | .error _ => true
  | .ok _ => false

/-- Response oracle for the C2 witness: two 429s, then 200 with JSON
body 7. -/
def c2Resps : Nat → HttpResponse Nat :=
  fun n => if n ≤ 2 then ⟨429, "", none⟩ else ⟨200, "{}", some 7⟩

/-- Response oracle for the C3 witness: always 404. -/
def c3Resps : Nat → HttpResponse Nat :=
  fun _ => ⟨404, "not found", none⟩

/-- Fetch oracle for the C1 witness: the two pages of the spec's
example scenario, page size 2 — offset 0 gives ids 1, 2, offset 2
gives id 3. -/
def c1Fetch : Nat → ListsResponse Nat :=
  fun offset =>
    if offset = 0 then ⟨some [1, 2]⟩
    else if offset = 2 then ⟨some [3]⟩
    else ⟨some []⟩

/-- Fetch oracle for the C7 witness: the "data" field is null. -/
def c7Fetch : Nat → ListsResponse Nat := fun _ => ⟨none⟩

/-! ### Theorems about the request executor -/

/-- Doubling-with-cap invariant: starting from 1, the i-th back-off
value is `min (2 ^ i) 30`. -/
theorem nextBackoff_pow (j : Nat) :
    nextBackoff (min (2 ^ j) 30) = min (2 ^ (j + 1)) 30 := by
  have h : 2 ^ (j + 1) = 2 ^ j * 2 := pow_succ 2 j
  simp only [nextBackoff]
  omega

/-- Generalized run of the retry loop on `k` rate-limited responses
followed by a 2xx JSON response, from attempt `a` with back-off
`min (2 ^ j) 30`. -/
theorem requestAux_rate_limited_then_success {J : Type}
    (resps : Nat → HttpResponse J) (v : J) (k : Nat) :
    ∀ (a j r : Nat), k < r →
      (∀ i, i < k → (resps (a + i)).status = 429) →
      200 ≤ (resps (a + k)).status →
      (resps (a + k)).status < 300 →
      (resps (a + k)).json = some v →
      requestAux resps a (min (2 ^ j) 30) r =
        ⟨.success v, (List.range k).map (fun i => min (2 ^ (j + i)) 30),
         k + 1⟩ := by
  induction k with
  | zero =>
    intro a j r hkr h429 hlo hhi hjson
    cases r with
    | zero => omega
    | succ r =>
      rw [Nat.add_zero] at hlo hhi hjson
      have hne : ¬(resps a).status = 429 := by omega
      have h2xx : 200 ≤ (resps a).status ∧ (resps a).status < 300 :=
        ⟨hlo, hhi⟩
      simp [requestAux, hne, h2xx, hjson]
  | succ k ih =>
    intro a j r hkr h429 hlo hhi hjson
    cases r with
    | zero => omega
    | succ r =>
      have h0 : (resps a).status = 429 := by
        have h := h429 0 (Nat.succ_pos k)
        simpa using h
      have hshift : a + (k + 1) = a + 1 + k := by omega
      rw [hshift] at hlo hhi hjson
      have hrec := ih (a + 1) (j + 1) r (by omega)
        (fun i hi => by
          have h := h429 (i + 1) (by omega)
          have : a + (i + 1) = a + 1 + i := by omega
          rwa [this] at h)
        hlo hhi hjson
      have hnot2xx : ¬(200 ≤ (resps a).status ∧ (resps a).status < 300) := by
        omega
      have hfun : ((fun i => min (2 ^ (j + i)) 30) ∘ Nat.succ) =
          fun i => min (2 ^ (j + 1 + i)) 30 := by
        funext i
        simp only [Function.comp]
        congr 2
        omega
      have hsl : (List.range (k + 1)).map (fun i => min (2 ^ (j + i)) 30) =
          min (2 ^ j) 30 ::
            (List.range k).map (fun i => min (2 ^ (j + 1 + i)) 30) := by
        rw [List.range_succ_eq_map, List.map_cons, List.map_map, hfun]
        simp
      simp only [requestAux, h0, if_pos, nextBackoff_pow, hrec, hsl]

/-- C2: for every sequence of k simulated HTTP 429 responses followed
by a 2xx response whose body decodes to v (within the attempt
budget), `_request` sleeps before each retry with delays 1, 2, 4, …
capped at 30, and returns the decoded body of the final 2xx
response, having issued k + 1 requests. -/
theorem rate_limited_backoff_doubles {J : Type}
    (resps : Nat → HttpResponse J) (v : J) (k maxRetries : Nat)
    (hkr : k < maxRetries)
    (h429 : ∀ i, i < k → (resps (1 + i)).status = 429)
    (hlo : 200 ≤ (resps (1 + k)).status)
    (hhi : (resps (1 + k)).status < 300)
    (hjson : (resps (1 + k)).json = some v) :
    request_run resps maxRetries =
      ⟨.success v, (List.range k).map (fun i => min (2 ^ i) 30), k + 1⟩ := by
  have h := requestAux_rate_limited_then_success resps v k 1 0 maxRetries
    hkr h429 hlo hhi hjson
  have h1 : (min (2 ^ 0) 30 : Nat) = 1 := by decide
  rw [h1] at h
  simpa [request_run] using h


/-- C2 witness: concrete run — sleeps [1, 2], three requests,
result 7. -/
theorem rate_limited_backoff_doubles_witness :
    request_run c2Resps 5 = ⟨.success 7, [1, 2], 3⟩ := by
  have h := rate_limited_backoff_doubles c2Resps 7 2 5 (by decide)
    (by decide) (by decide) (by decide) (by decide)
  simpa using h

/-- C3: a response whose status is in {400, 401, 403, 404, 409, 500}
makes `_request` fail on the first attempt with an error carrying the
status code and the raw body, with exactly one request issued and no
sleeping. -/
theorem terminal_status_fails_first_attempt {J : Type}
    (resps : Nat → HttpResponse J) (maxRetries : Nat)
    (hmax : 0 < maxRetries)
    (hterm : (resps 1).status ∈ [400, 401, 403, 404, 409, 500]) :
    request_run resps maxRetries =
      ⟨.httpError (resps 1).status (resps 1).text, [], 1⟩ := by
  cases maxRetries with
  | zero => omega
  | succ r =>
    have hs : (resps 1).status = 400 ∨ (resps 1).status = 401 ∨
        (resps 1).status = 403 ∨ (resps 1).status = 404 ∨
        (resps 1).status = 409 ∨ (resps 1).status = 500 := by
      simpa using hterm
    rcases hs with hs | hs | hs | hs | hs | hs <;>
      simp [request_run, requestAux, hs]


/-- C3 witness: concrete run — fails at once with the 404 error and
body, one request, no sleeps. -/
theorem terminal_status_fails_first_attempt_witness :
    request_run c3Resps 5 = ⟨.httpError 404 "not found", [], 1⟩ := by
  have h := terminal_status_fails_first_attempt c3Resps 5 (by decide)
    (by decide)
  simpa using h

/-! ### Theorems about the pagination iterator -/

/-- C1: for every paged response sequence in which every page except
the last has exactly `pageSize` items and the last has fewer, the
iterator starting at the given offset yields the concatenation of all
pages in order (requesting page i at offset + i * pageSize, i.e.
advancing by pageSize between requests) and issues exactly one
request per page — none after the short page. -/
theorem iter_lists_yields_concatenation {α : Type} (pageSize : Nat)
    (pages : List (List α)) :
    ∀ (fetch : Nat → ListsResponse α) (offset fuel : Nat),
      0 < pageSize → pages ≠ [] → pages.length ≤ fuel →
      (∀ i, i < pages.length →
        responseItems (fetch (offset + i * pageSize)) = pages.getD i []) →
      (∀ i, i + 1 < pages.length → (pages.getD i []).length = pageSize) →
      (pages.getD (pages.length - 1) []).length < pageSize →
      iterListsAux pageSize fetch offset fuel =
        (pages.flatten, pages.length) := by
  induction pages with
  | nil => intro _ _ _ _ hne _ _ _ _; exact absurd rfl hne
  | cons p rest ih =>
    intro fetch offset fuel hps hne hfuel hfetch hfull hlast
    cases fuel with
    | zero => simp at hfuel
    | succ fuel =>
      have hp : responseItems (fetch offset) = p := by
        have h := hfetch 0 (by simp)
        simpa using h
      cases rest with
      | nil =>
        have hshort : p.length < pageSize := by simpa using hlast
        by_cases hpe : p.isEmpty
        · have : p = [] := by simpa using hpe
          subst this
          simp [iterListsAux, hp]
        · simp [iterListsAux, hp, hpe, hshort]
      | cons q rest' =>
        have hfullp : p.length = pageSize := by
          have h := hfull 0 (by simp)
          simpa using h
        have hpne : ¬p.isEmpty := by
          simp only [List.isEmpty_iff]
          intro h
          rw [h] at hfullp
          simp at hfullp
          omega
        have hnlt : ¬p.length < pageSize := by omega
        have hrec := ih fetch (offset + pageSize) fuel hps
          (List.cons_ne_nil q rest')
          (by simpa using hfuel)
          (fun i hi => by
            have h := hfetch (i + 1) (by simpa using hi)
            have harith : offset + (i + 1) * pageSize =
                offset + pageSize + i * pageSize := by ring
            rw [harith] at h
            simpa using h)
          (fun i hi => by
            have h := hfull (i + 1) (by simpa using hi)
            simpa using h)
          (by
            have h := hlast
            simp only [List.length_cons] at h ⊢
            have harith : rest'.length + 1 + 1 - 1 = rest'.length + 1 := by
              omega
            rw [harith] at h
            simpa using h)
        simp [iterListsAux, hp, hpne, hnlt, hrec]


/-- C1 witness: the spec's example — page size 2, pages [1,2] then
[3], yields [1, 2, 3] over exactly two requests. -/
theorem iter_lists_yields_concatenation_witness :
    iter_lists 2 c1Fetch 2 = ([1, 2, 3], 2) := by
  have h := iter_lists_yields_concatenation 2 [[1, 2], [3]] c1Fetch 0 2
    (by decide) (by decide) (by decide) (by decide)
    (by
      intro i hi
      simp only [List.length_cons, List.length_nil] at hi
      have h0 : i = 0 := by omega
      subst h0
      rfl)
    (by decide)
  simpa [iter_lists] using h

/-- C7: if the first page's item collection is missing, null, or
empty, the iterator yields zero items and performs exactly one
request. -/
theorem iter_lists_empty_first_page {α : Type} (pageSize fuel : Nat)
    (fetch : Nat → ListsResponse α)
    (h : (fetch 0).data = none ∨ (fetch 0).data = some []) :
    iter_lists pageSize fetch (fuel + 1) = ([], 1) := by
  have hi : responseItems (fetch 0) = [] := by
    rcases h with h | h <;> simp [responseItems, h]
  simp [iter_lists, iterListsAux, hi]


/-- C7 witness: concrete empty first page — zero items, one
request. -/
theorem iter_lists_empty_first_page_witness :
    iter_lists 3 c7Fetch 1 = ([], 1) :=
  iter_lists_empty_first_page 3 0 c7Fetch (Or.inl rfl)

/-! ### Theorems about the resource operations -/

/-- C4 counterexample: `get_profiles_by_list` called with the zero
list id does not fail locally — it dispatches the request, with
`listid = 0` in the params, refuting the claim that every
required-identifier operation rejects a zero identifier before any
HTTP request. -/
theorem get_profiles_by_list_zero_id_dispatches :
    get_profiles_by_list 0 100 0 =
      Except.ok ⟨"GET", "/Profiles/GetProfilesByList",
        [("listid", .int 0), ("limit", .int 100), ("offset", .int 0)],
        []⟩ := rfl

/-- C4 (amended): of the resource operations taking a required list,
profile, segment or field identifier, nine validate it —
`get_unsubscribes_by_list`, `add_profile_to_list`, `update_profile`,
`edit_segment`, `delete_segment`, `delete_data_field`,
`lists_add_data_fields`, `lists_remove_data_fields` and
`get_profiles_sms_unsubscribed` fail immediately with a local
`ValueError` on a zero identifier, before any HTTP request — but
four perform no such check and dispatch the request with the zero
identifier: `get_profiles_by_list`, `get_profiles_from_segment`,
`lists_get_data_fields` and `schedule_send_newsletter_to_list`. -/
theorem identifier_validation_amended :
    (∀ (co : Bool) (st : Option String) (ssd sed : Option Param)
       (limit offset : Int),
      get_unsubscribes_by_list 0 co st ssd sed limit offset =
        Except.error "listid is required") ∧
    (∀ (e m p : Option String) (dfs : Option (List DataField))
       (c mc ar : Bool),
      add_profile_to_list 0 e m p dfs c mc ar =
        Except.error "listid is required") ∧
    (∀ dfs, update_profile 0 dfs =
        Except.error "profileid is required") ∧
    (∀ (name connector : String) (rules : RulesDict),
      edit_segment 0 name rules connector =
        Except.error "segmentid is required") ∧
    (delete_segment 0 = Except.error "segmentid is required") ∧
    (delete_data_field 0 = Except.error "fieldid is required") ∧
    (∀ fids, lists_add_data_fields 0 fids =
        Except.error "listid and field_ids are required") ∧
    (∀ fids, lists_remove_data_fields 0 fids =
        Except.error "listid and field_ids are required") ∧
    (∀ (date : Option Param) (ty : String) (limit offset : Int),
      get_profiles_sms_unsubscribed 0 date ty limit offset =
        Except.error "listid is required") ∧
    (∀ limit offset, ∃ req,
      get_profiles_by_list 0 limit offset = Except.ok req) ∧
    (∀ limit offset, ∃ req,
      get_profiles_from_segment 0 limit offset = Except.ok req) ∧
    (∀ (ft : Option String) (limit offset : Int), ∃ req,
      lists_get_data_fields 0 ft limit offset = Except.ok req) ∧
    (∀ (newsletterid : Int) (ts : Option Int), ∃ req,
      schedule_send_newsletter_to_list newsletterid 0 ts =
        Except.ok req) := by
  refine ⟨?_, ?_, ?_, ?_, ?_, ?_, ?_, ?_, ?_, ?_, ?_, ?_, ?_⟩ <;>
    intros <;>
    simp [get_unsubscribes_by_list, add_profile_to_list, update_profile,
      edit_segment, delete_segment, delete_data_field,
      lists_add_data_fields, lists_remove_data_fields,
      get_profiles_sms_unsubscribed, get_profiles_by_list,
      get_profiles_from_segment, lists_get_data_fields,
      schedule_send_newsletter_to_list]

/-- C5: calling `add_profile_to_list` with no (truthy) email address
and without both a mobile number and prefix fails locally with a
`ValueError` before any HTTP request is dispatched. -/
theorem add_profile_requires_contact (listid : Int)
    (email mobile pfx : Option String) (dfs : Option (List DataField))
    (c mc ar : Bool)
    (hemail : truthyOpt email = false)
    (hmp : (truthyOpt mobile && truthyOpt pfx) = false) :
    isLocalError (add_profile_to_list listid email mobile pfx dfs c mc ar)
      = true := by
  by_cases h0 : listid = 0
  · simp [add_profile_to_list, h0, isLocalError]
  · simp [add_profile_to_list, h0, hemail, hmp, isLocalError]

/-- C5 witness: no email, no mobile, no prefix — local failure. -/
theorem add_profile_requires_contact_witness :
    isLocalError (add_profile_to_list 5 none none none none true true false)
      = true :=
  add_profile_requires_contact 5 none none none none true true false
    rfl rfl

/-- C6: an SMS-unsubscribe call that passes all preceding validation
and asks for a limit above 1000 dispatches with the limit silently
capped to 1000 in the request params — no error is raised for
exceeding the maximum. -/
theorem sms_unsubscribed_caps_limit (listid : Int) (date : Param)
    (ty : String) (limit offset : Int)
    (hlist : listid ≠ 0)
    (hdate : date ≠ Param.str "")
    (hty : pyLower ty = "on" ∨ pyLower ty = "before" ∨
      pyLower ty = "after")
    (hlim : 1000 < limit) :
    get_profiles_sms_unsubscribed listid (some date) ty limit offset =
      Except.ok ⟨"GET", "/Profiles/GetProfilesSMSUnsubscribed",
        [("listid", .int listid), ("date", date),
         ("type", .str (pyLower ty)), ("limit", .int 1000),
         ("offset", .int offset)], []⟩ := by
  have h1 : ¬limit ≤ 0 := by omega
  simp [get_profiles_sms_unsubscribed, hlist, hdate, hty, h1, hlim]

/-- C6 witness: the spec's example — limit 5000 is reduced to 1000
before dispatch. -/
theorem sms_unsubscribed_caps_limit_witness :
    get_profiles_sms_unsubscribed 7 (some (Param.int 123)) "on" 5000 0 =
      Except.ok ⟨"GET", "/Profiles/GetProfilesSMSUnsubscribed",
        [("listid", .int 7), ("date", Param.int 123), ("type", .str "on"),
         ("limit", .int 1000), ("offset", .int 0)], []⟩ := by
  have h := sms_unsubscribed_caps_limit 7 (Param.int 123) "on" 5000 0
    (by decide) (by decide) (Or.inl (by decide)) (by decide)
  simpa using h

/-- C8 counterexample: `create_data_field` with a field type outside
the documented set {text, textarea, number, dropdown, checkbox,
radiobutton, date} does not fail locally — it dispatches the request
with the out-of-set value, refuting the claim that every enumerated
string argument is validated by the resource operation. -/
theorem create_data_field_bogus_type_dispatches :
    create_data_field "myfield" "bogus" none none =
      Except.ok ⟨"POST", "/DataFields", [],
        [("name", JVal.str "myfield"),
         ("field_type", JVal.str "bogus")]⟩ := by
  simp [create_data_field]

/-- C8 (amended): of the enumerated string arguments, only the
SMS-unsubscribe comparison type is validated by its resource
operation (an out-of-set value fails locally before any request);
`create_data_field` and `get_unsubscribes_by_list` dispatch any
(truthy-name / valid-id) call regardless of the field type or search
type value — those two are restricted only by the CLI argument
parser's choices lists. -/
theorem enum_validation_amended :
    (∀ (listid : Int) (date : Option Param) (ty : String)
       (limit offset : Int),
      ¬(pyLower ty = "on" ∨ pyLower ty = "before" ∨
        pyLower ty = "after") →
      isLocalError (get_profiles_sms_unsubscribed listid date ty
        limit offset) = true) ∧
    (∀ (name ft : String) (dv : Option String)
       (st : Option SettingsDict), name ≠ "" → ft ≠ "" →
      ∃ req, create_data_field name ft dv st = Except.ok req) ∧
    (∀ (listid : Int) (co : Bool) (stype : Option String)
       (ssd sed : Option Param) (limit offset : Int), listid ≠ 0 →
      ∃ req, get_unsubscribes_by_list listid co stype ssd sed
        limit offset = Except.ok req) := by
  refine ⟨?_, ?_, ?_⟩
  · intro listid date ty limit offset hty
    simp only [get_profiles_sms_unsubscribed]
    split_ifs <;> simp [isLocalError]
  · intro name ft dv st hn hf
    simp [create_data_field, hn, hf]
  · intro listid co stype ssd sed limit offset h0
    simp [get_unsubscribes_by_list, h0]

/-- C8 witness: concrete instances of all three parts of the amended
statement. -/
theorem enum_validation_amended_witness :
    isLocalError (get_profiles_sms_unsubscribed 1
      (some (Param.int 5)) "sometimes" 10 0) = true ∧
    (∃ req, create_data_field "f" "bogus" none none =
      Except.ok req) ∧
    (∃ req, get_unsubscribes_by_list 3 false (some "bogus") none none
      100 0 = Except.ok req) := by
  refine ⟨?_, ?_, ?_⟩
  · exact enum_validation_amended.1 1 (some (Param.int 5)) "sometimes"
      10 0 (by decide)
  · exact enum_validation_amended.2.1 "f" "bogus" none none
      (by decide) (by decide)
  · exact enum_validation_amended.2.2 3 false (some "bogus") none none
      100 0 (by decide)

/-- C10: every call of `get_profiles_sms_unsubscribed` with a limit
at most 0 fails locally with a `ValueError` before any HTTP request
is issued — the lower bound is rejected, not clamped. -/
theorem sms_unsubscribed_rejects_nonpositive_limit (listid : Int)
    (date : Option Param) (ty : String) (limit offset : Int)
    (hlim : limit ≤ 0) :
    isLocalError (get_profiles_sms_unsubscribed listid date ty
      limit offset) = true := by
  simp only [get_profiles_sms_unsubscribed]
  split_ifs <;> simp [isLocalError]

/-- C10 witness: limit 0 on an otherwise valid call is rejected. -/
theorem sms_unsubscribed_rejects_nonpositive_limit_witness :
    isLocalError (get_profiles_sms_unsubscribed 1
      (some (Param.int 100)) "on" 0 0) = true :=
  sms_unsubscribed_rejects_nonpositive_limit 1 (some (Param.int 100))
    "on" 0 0 (by decide)

/-! ### Theorems about the CLI top level -/

/-- C9 counterexample: on a failure reaching the top level the
handler prints the single "Error: ..." line but the process exit
status is 0, not non-zero — the `except` clause swallows the
exception and the script ends normally, refuting the claim of a
non-zero exit status. -/
theorem top_level_exit_status_is_zero :
    cliTopLevel (Except.error "boom") = (["Error: boom"], 0) := rfl

/-- C9 (amended): for every failure reaching the top level, exactly
one line "Error: <message>" is printed and the process exits with
status 0 (there is no `sys.exit`, so no non-zero status is set). -/
theorem top_level_error_line_exit_zero (msg : String) :
    cliTopLevel (Except.error msg) = (["Error: " ++ msg], 0) := rfl

end MPCli
